import Mathlib

/-!
Verification of the Wine RAG HTTP service (`webapp/main.py`).

The file shallowly embeds the service: environment variables are `Option String`
fields, Python truthiness is made explicit, the two external collaborators
(Azure Search and the OpenAI completion endpoint) are modelled as an oracle
record `World`, and each route handler becomes a pure function from the
environment, the client-initialization flags, the oracle and the request to an
`Except HTTPException` result.  Floating-point generation parameters are
embedded as exact rationals (the decimal literals of the source are exact).
-/

namespace WineRag

/-- Process environment as seen through `os.getenv`: each variable is either
unset (`none`) or set to a string (possibly empty). -/
structure Env where
  OPENAI_API_KEY : Option String
  SEARCH_SERVICE_NAME : Option String
  SEARCH_API_KEY : Option String
  SEARCH_INDEX_NAME : Option String
  API_KEY : Option String
  ENVIRONMENT : Option String
  deriving DecidableEq

/-- Python truthiness of an `os.getenv` result: `None` and `""` are falsy,
every other string is truthy. -/
def pyTruthy : Option String → Bool
  | none => false
  | some s => !(s == "")

/-- The argument record of `search_client.search(...)` (main.py lines 141-145). -/
structure SearchRequest where
  search_text : String
  top : Nat
  select : List String
  deriving DecidableEq

/-- A search hit as consumed by the service: with `select=["content"]` the
service exposes the single text field `content` (spec §3, `SearchResult`). -/
structure SearchResult where
  content : String
  deriving DecidableEq

/-- One entry of the `messages` list of the completion call. -/
structure ChatMessage where
  role : String
  content : String
  deriving DecidableEq

/-- One element of `completion.choices`. -/
structure Choice where
  message : ChatMessage
  deriving DecidableEq

/-- The completion object returned by the completion service. -/
structure Completion where
  choices : List Choice
  deriving DecidableEq

/-- The argument record of `openai_client.chat.completions.create(...)`
(main.py lines 158-167). -/
structure CompletionRequest where
  model : String
  messages : List ChatMessage
  temperature : ℚ
  max_tokens : Nat
  top_p : ℚ
  frequency_penalty : ℚ
  presence_penalty : ℚ
  stop : Option (List String)
  deriving DecidableEq

/-- `fastapi.HTTPException`: status code, detail string (which is also
`str(e)` of the exception), and extra response headers. -/
structure HTTPException where
  status_code : Nat
  detail : String
  headers : List (String × String)
  deriving DecidableEq

/-- Request body of the ask/chat routes. -/
structure ChatRequest where
  message : String
  deriving DecidableEq

/-- Response body of the ask/chat routes. -/
structure ChatResponse where
  response : String
  deriving DecidableEq

/-- The two external collaborators, as oracles: any transport or service
failure is an `Except.error` carrying `str(e)` of the raised exception. -/
structure World where
  search : SearchRequest → Except String (List SearchResult)
  complete : CompletionRequest → Except String Completion

/-- The backslash character (written by code point to keep escaping local). -/
def backslashChar : Char := Char.ofNat 92

/-- The single-quote character. -/
def singleQuoteChar : Char := Char.ofNat 39

/-- The double-quote character. -/
def doubleQuoteChar : Char := Char.ofNat 34

/-- Escaping of one character inside Python `repr` of a string with the given
quote character (backslash, quote, newline, carriage return, tab; other
non-printable escapes do not arise in this development). -/
def pyEscapeChar (quote c : Char) : String :=
  if c = backslashChar then backslashChar.toString ++ backslashChar.toString
  else if c = quote then backslashChar.toString ++ quote.toString
  else if c = Char.ofNat 10 then backslashChar.toString ++ "n"
  else if c = Char.ofNat 13 then backslashChar.toString ++ "r"
  else if c = Char.ofNat 9 then backslashChar.toString ++ "t"
  else c.toString

/-- Python `repr` of a string: single quotes, switching to double quotes when
the string contains a single quote but no double quote. -/
def pyReprStr (s : String) : String :=
  let quote :=
    if s.toList.contains singleQuoteChar && !(s.toList.contains doubleQuoteChar) then
      doubleQuoteChar
    else singleQuoteChar
  quote.toString ++ String.join (s.toList.map (pyEscapeChar quote)) ++ quote.toString

/-- Python `repr` of one search hit, a dict with the selected `content` field. -/
def pyReprSearchResult (r : SearchResult) : String :=
  "\x7b" ++ pyReprStr "content" ++ ": " ++ pyReprStr r.content ++ "\x7d"

/-- Python `str(top_results)` for `top_results = list(search_results)`
(main.py line 149): the bracketed, comma-separated reprs of all hits in
service order. -/
def pyStr (results : List SearchResult) : String :=
  "[" ++ String.intercalate ", " (results.map pyReprSearchResult) ++ "]"

/-- The challenge header attached to the 401 of `verify_api_key`. -/
def apiKeyChallenge : List (String × String) := [("WWW-Authenticate", "ApiKey")]

/-- The 401 detail string of `verify_api_key`. -/
def invalidKeyDetail : String := "Invalid or missing API key. Include X-API-Key header."

/-- `verify_api_key` (main.py lines 73-87): no-op when no `API_KEY` is
configured (Python-falsy), otherwise 401 unless the `X-API-Key` header is
truthy and equal (case-sensitive) to the configured value. -/
def verify_api_key (env : Env) (x_api_key : Option String) : Except HTTPException Bool :=
  let expected_api_key := env.API_KEY
  if pyTruthy expected_api_key = false then .ok true
  else if pyTruthy x_api_key = false ∨ x_api_key ≠ expected_api_key then
    .error ⟨401, invalidKeyDetail, apiKeyChallenge⟩
  else .ok true

/-- The fixed system persona string of the completion prompt. -/
def systemPersona : String :=
  "Assistant is a chatbot that helps you find the best wine for your taste."

/-- Detail string of the 500 raised when a client handle is unset. -/
def clientsNotInitializedDetail : String := "Clients not properly initialized"

/-- Detail string of the 500 raised when the RAG try-block fails,
`f"RAG processing failed: {str(e)}"`. -/
def ragFailedDetail (e : String) : String := "RAG processing failed: " ++ e

/-- The completion request built by `ai_RAG_chat` for a given question and
context (main.py lines 152-167). -/
def ragCompletionRequest (user_message context : String) : CompletionRequest :=
  ⟨"gpt-35-turbo-2",
   [⟨"system", systemPersona⟩, ⟨"user", user_message⟩, ⟨"assistant", context⟩],
   0.7, 4096, 0.95, 0, 0, none⟩

/-- `ai_RAG_chat` (main.py lines 134-172).  The two booleans are the startup
client handles (`True` = handle set).  Any oracle failure, and an empty
`choices` list (Python `IndexError` on `choices[0]`), is wrapped by the
`except` clause into a 500 carrying `"RAG processing failed: " + str(e)`. -/
def ai_RAG_chat (openai_client search_client : Bool) (w : World)
    (user_message : String) : Except HTTPException String :=
  if !openai_client || !search_client then
    .error ⟨500, clientsNotInitializedDetail, []⟩
  else
    match w.search ⟨user_message, 20, ["content"]⟩ with
    | .error e => .error ⟨500, ragFailedDetail e, []⟩
    | .ok top_results =>
      let context := pyStr top_results
      let message_text : List ChatMessage :=
        [⟨"system", systemPersona⟩, ⟨"user", user_message⟩, ⟨"assistant", context⟩]
      match w.complete ⟨"gpt-35-turbo-2", message_text, 0.7, 4096, 0.95, 0, 0, none⟩ with
      | .error e => .error ⟨500, ragFailedDetail e, []⟩
      | .ok completion =>
        match completion.choices with
        | [] => .error ⟨500, ragFailedDetail "list index out of range", []⟩
        | c :: _ => .ok c.message.content

/-- Handler body of `POST /ask` (main.py lines 212-219): any exception `e`
from `ai_RAG_chat` (always an `HTTPException` here, whose `str` is its
detail) is re-raised as a fresh 500 with detail `str(e)`. -/
def ask_question (openai_client search_client : Bool) (w : World)
    (request : ChatRequest) : Except HTTPException ChatResponse :=
  match ai_RAG_chat openai_client search_client w request.message with
  | .ok response => .ok ⟨response⟩
  | .error e => .error ⟨500, e.detail, []⟩

/-- Handler body of `POST /chat` (main.py lines 221-224): delegates to
`ask_question`. -/
def chat (openai_client search_client : Bool) (w : World)
    (request : ChatRequest) : Except HTTPException ChatResponse :=
  ask_question openai_client search_client w request

/-- Handler body of `POST /ask-public` (main.py lines 227-234): identical to
`ask_question` but mounted without the auth dependency. -/
def ask_question_public (openai_client search_client : Bool) (w : World)
    (request : ChatRequest) : Except HTTPException ChatResponse :=
  match ai_RAG_chat openai_client search_client w request.message with
  | .ok response => .ok ⟨response⟩
  | .error e => .error ⟨500, e.detail, []⟩

/-- The `ssl_info` block of the health response (constant). -/
structure SslInfo where
  https_enforced : String
  hsts_enabled : Bool
  ssl_termination : String
  security_headers : String
  deriving DecidableEq

/-- The `environment` block of the health response. -/
structure HealthEnvironment where
  OPENAI_API_KEY : String
  SEARCH_SERVICE_NAME : String
  SEARCH_API_KEY : String
  SEARCH_INDEX_NAME : String
  API_KEY_CONFIGURED : String
  deriving DecidableEq

/-- The body returned by `GET /health`. -/
structure HealthResponse where
  status : String
  security_status : String
  ssl_info : SslInfo
  openai_client : String
  search_client : String
  environment : HealthEnvironment
  deriving DecidableEq

/-- `health_check` (main.py lines 188-209). -/
def health_check (openai_client search_client : Bool) (env : Env) : HealthResponse :=
  ⟨"healthy",
   "🔒 HTTPS/SSL Enabled by Azure Container Apps",
   ⟨"Azure Container Apps handles HTTPS redirect automatically", true,
    "Azure Container Apps manages SSL certificates",
    "Custom security headers implemented"⟩,
   if openai_client then "initialized" else "failed",
   if search_client then "initialized" else "failed",
   ⟨if pyTruthy env.OPENAI_API_KEY then "set" else "missing",
    env.SEARCH_SERVICE_NAME.getD "not set",
    if pyTruthy env.SEARCH_API_KEY then "set" else "missing",
    env.SEARCH_INDEX_NAME.getD "not set",
    if pyTruthy env.API_KEY then "yes" else "no"⟩⟩

/-- The `security` block of the root response. -/
structure RootSecurity where
  https_enforced : String
  ssl_termination : String
  security_headers : String
  api_authentication : String
  deriving DecidableEq

/-- The body returned by `GET /`. -/
structure RootResponse where
  message : String
  status : String
  security : RootSecurity
  deriving DecidableEq

/-- `root` (main.py lines 175-186). -/
def root (env : Env) : RootResponse :=
  ⟨"🔒 Secure Wine RAG API is running with HTTPS/SSL!", "healthy",
   ⟨"Azure Container Apps handles HTTPS redirect", "Azure Container Apps",
    "enabled", if pyTruthy env.API_KEY then "enabled" else "disabled"⟩⟩

/-- Response body shapes of the five routes. -/
inductive Body where
  | chatBody (c : ChatResponse)
  | healthBody (h : HealthResponse)
  | rootBody (r : RootResponse)
  | detail (d : String)
  deriving DecidableEq

/-- An HTTP response: status, body, headers. -/
structure Response where
  status : Nat
  body : Body
  headers : List (String × String)
  deriving DecidableEq

/-- FastAPI rendering of a handler outcome: 200 with the model body, or the
`HTTPException` as a `\x7b"detail": ...\x7d` body with its status and headers. -/
def toResponse : Except HTTPException ChatResponse → Response
  | .ok c => ⟨200, .chatBody c, []⟩
  | .error e => ⟨e.status_code, .detail e.detail, e.headers⟩

/-- An inbound request to one of the five routes. -/
inductive Request where
  | rootReq
  | healthReq
  | ask (x_api_key : Option String) (message : String)
  | chatReq (x_api_key : Option String) (message : String)
  | askPublic (message : String)

/-- Route dispatch, before the security-header middleware: the protected
routes run `verify_api_key` as a dependency first (its 401 short-circuits the
handler), the public routes run their handler directly. -/
def dispatch (env : Env) (openai_client search_client : Bool) (w : World) :
    Request → Response
  | .rootReq => ⟨200, .rootBody (root env), []⟩
  | .healthReq => ⟨200, .healthBody (health_check openai_client search_client env), []⟩
  | .ask key msg =>
    match verify_api_key env key with
    | .error e => toResponse (.error e)
    | .ok _ => toResponse (ask_question openai_client search_client w ⟨msg⟩)
  | .chatReq key msg =>
    match verify_api_key env key with
    | .error e => toResponse (.error e)
    | .ok _ => toResponse (chat openai_client search_client w ⟨msg⟩)
  | .askPublic msg => toResponse (ask_question_public openai_client search_client w ⟨msg⟩)

/-- Starlette `response.headers[k] = v`: drop any existing entry for the key,
append the new pair. -/
def headerSet (hs : List (String × String)) (k v : String) : List (String × String) :=
  hs.filter (fun p => !(p.1 == k)) ++ [(k, v)]

/-- Header lookup: first entry with the given key (each key set through
`headerSet` occurs at most once). -/
def headerGet : List (String × String) → String → Option String
  | [], _ => none
  | p :: rest, k => if p.1 == k then some p.2 else headerGet rest k

/-- A single-quote as a one-character string, for header values quoting
CSP source keywords. -/
def singleQuote : String := singleQuoteChar.toString

/-- The `Content-Security-Policy` value set by the middleware. -/
def cspValue : String :=
  "default-src " ++ singleQuote ++ "self" ++ singleQuote ++
  "; script-src " ++ singleQuote ++ "self" ++ singleQuote ++ " " ++
  singleQuote ++ "unsafe-inline" ++ singleQuote ++
  "; style-src " ++ singleQuote ++ "self" ++ singleQuote ++ " " ++
  singleQuote ++ "unsafe-inline" ++ singleQuote

/-- `add_security_headers` middleware (main.py lines 53-70): sets the eight
fixed security headers on the response produced by the inner application. -/
def add_security_headers (r : Response) : Response :=
  ⟨r.status, r.body,
   headerSet (headerSet (headerSet (headerSet (headerSet (headerSet (headerSet (headerSet
     r.headers
     "Strict-Transport-Security" "max-age=31536000; includeSubDomains; preload")
     "X-Content-Type-Options" "nosniff")
     "X-Frame-Options" "DENY")
     "X-XSS-Protection" "1; mode=block")
     "Content-Security-Policy" cspValue)
     "Referrer-Policy" "strict-origin-when-cross-origin")
     "Permissions-Policy" "geolocation=(), microphone=(), camera=()")
     "X-Security-Features" "HTTPS-Enforced-By-Azure,HSTS-Enabled,SSL-Termination"⟩

/-- Full request handling: route dispatch, then the security-header
middleware (outermost user middleware, so it wraps 401/500 outcomes too). -/
def handle_request (env : Env) (openai_client search_client : Bool) (w : World)
    (req : Request) : Response :=
  add_security_headers (dispatch env openai_client search_client w req)

/-- Context-selection policy as the spec's first-result wording states it
(spec §4.2), defined from the spec text for comparison against the code's
`str(top_results)` rendering. -/
def specFirstResultContext : List SearchResult → String
  | [] => "No relevant documents found."
  | r :: _ => r.content

/-- A world whose search returns no hits and whose completion echoes the
assistant-role message (the context) back as the answer: used to observe the
context that `ai_RAG_chat` passes to the completion call. -/
def echoAssistantWorld : World :=
  ⟨fun _ => .ok [],
   fun r => .ok ⟨[⟨⟨"assistant", (r.messages.getD 2 ⟨"", ""⟩).content⟩⟩]⟩⟩

/-- A world whose two collaborators always fail. -/
def deadWorld : World :=
  ⟨fun _ => .error "down", fun _ => .error "down"⟩

/-- An environment with every variable unset. -/
def envNone : Env := ⟨none, none, none, none, none, none⟩

/-- An environment with only the shared secret configured. -/
def envWithKey : Env := ⟨none, none, none, none, some "wine-rag-secure-api-key-2024", none⟩

/-- A world whose search succeeds with no hits and whose completion fails. -/
def quotaFailWorld : World :=
  ⟨fun _ => .ok [], fun _ => .error "quota exceeded"⟩

/-- A world answering every completion request with one fixed choice. -/
def oneAnswerWorld : World :=
  ⟨fun _ => .ok [], fun _ => .ok ⟨[⟨⟨"assistant", "Wine answer"⟩⟩]⟩⟩

/-- A world whose search distinguishes the requested result cap. -/
def onlyTop20World : World :=
  ⟨fun r => if r.top = 20 then .ok [] else .ok [⟨"unused"⟩],
   fun _ => .ok ⟨[⟨⟨"assistant", "ans"⟩⟩]⟩⟩

/-- A world whose search always returns no hits. -/
def emptySearchWorld : World :=
  ⟨fun _ => .ok [], fun _ => .ok ⟨[⟨⟨"assistant", "ans"⟩⟩]⟩⟩

/-- An environment holding one pair of secret values. -/
def envA : Env := ⟨some "secret-A", some "https://svc", some "search-key-A", none, none, none⟩

/-- The same environment with both secret values replaced. -/
def envB : Env := ⟨some "secret-B", some "https://svc", some "search-key-B", none, none, none⟩

/-- With both client handles set, `ai_RAG_chat` is the search call followed by
the completion call at `ragCompletionRequest` of the question and
`str(top_results)`; pure unfolding of the definition. -/
theorem ai_RAG_chat_ok_clients (w : World) (msg : String) :
    ai_RAG_chat true true w msg =
      match w.search ⟨msg, 20, ["content"]⟩ with
      | .error e => .error ⟨500, ragFailedDetail e, []⟩
      | .ok top_results =>
        match w.complete (ragCompletionRequest msg (pyStr top_results)) with
        | .error e => .error ⟨500, ragFailedDetail e, []⟩
        | .ok completion =>
          match completion.choices with
          | [] => .error ⟨500, ragFailedDetail "list index out of range", []⟩
          | c :: _ => .ok c.message.content := rfl

/-- Helper: a request carrying exactly the configured key passes the gate. -/
theorem verify_api_key_ok_of_match (env : Env) (k : String)
    (hconf : env.API_KEY = some k) :
    verify_api_key env (some k) = .ok true := by
  by_cases hk : pyTruthy (some k) = false
  · simp only [verify_api_key]
    rw [hconf, if_pos hk]
  · simp only [verify_api_key]
    rw [hconf, if_neg hk, if_neg ?hcond]
    case hcond =>
      intro hor
      rcases hor with h | h
      · exact hk h
      · exact h rfl

/-- Claim C9: when no `API_KEY` is configured in the environment, the auth
gate allows every request, whatever `X-API-Key` carries. -/
theorem verify_api_key_open_when_unconfigured (env : Env)
    (hnone : env.API_KEY = none) (x_api_key : Option String) :
    verify_api_key env x_api_key = .ok true := by
  simp only [verify_api_key]
  rw [hnone]
  rfl

/-- Witness for C9 at a concrete environment and header. -/
theorem verify_api_key_open_when_unconfigured_witness :
    verify_api_key envNone (some "any-key") = .ok true :=
  verify_api_key_open_when_unconfigured envNone rfl (some "any-key")

/-- Claim C2: with a (non-empty) secret configured, a missing or mismatching
(case-sensitive) `X-API-Key` header makes the gate reject with exactly 401,
the `WWW-Authenticate: ApiKey` challenge, and one fixed body shared by the
missing and wrong cases; the `/ask` route then returns that 401 response. -/
theorem verify_api_key_rejects_with_401 (env : Env) (k : String)
    (hconf : env.API_KEY = some k) (hne : k ≠ "")
    (key : Option String) (hbad : key = none ∨ ∃ v, key = some v ∧ v ≠ k)
    (o s : Bool) (w : World) (msg : String) :
    verify_api_key env key = .error ⟨401, invalidKeyDetail, apiKeyChallenge⟩ ∧
    dispatch env o s w (.ask key msg) = ⟨401, .detail invalidKeyDetail, apiKeyChallenge⟩ := by
  have hv : verify_api_key env key = .error ⟨401, invalidKeyDetail, apiKeyChallenge⟩ := by
    rcases hbad with rfl | ⟨v, rfl, hvk⟩
    · simp only [verify_api_key]
      rw [hconf]
      simp [pyTruthy, hne]
    · simp only [verify_api_key]
      rw [hconf]
      simp [pyTruthy, hne, hvk]
  refine ⟨hv, ?_⟩
  simp [dispatch, hv, toResponse]

/-- Witness for C2: wrong key differing only in case is rejected 401. -/
theorem verify_api_key_rejects_with_401_witness :
    verify_api_key envWithKey (some "WINE-RAG-SECURE-API-KEY-2024") =
      .error ⟨401, invalidKeyDetail, apiKeyChallenge⟩ ∧
    dispatch envWithKey true true deadWorld (.ask (some "WINE-RAG-SECURE-API-KEY-2024") "q") =
      ⟨401, .detail invalidKeyDetail, apiKeyChallenge⟩ :=
  verify_api_key_rejects_with_401 envWithKey "wine-rag-secure-api-key-2024" rfl (by decide)
    (some "WINE-RAG-SECURE-API-KEY-2024")
    (Or.inr ⟨"WINE-RAG-SECURE-API-KEY-2024", rfl, by decide⟩) true true deadWorld "q"

/-- Claim C3: a `/ask` request carrying exactly the configured secret yields
the very same response as `/ask-public` with the same message (the two
handlers agree once the gate passes). -/
theorem ask_with_correct_key_equals_public (env : Env) (k : String)
    (hconf : env.API_KEY = some k) (o s : Bool) (w : World) (msg : String) :
    dispatch env o s w (.ask (some k) msg) = dispatch env o s w (.askPublic msg) := by
  have hv := verify_api_key_ok_of_match env k hconf
  simp only [dispatch]
  rw [hv]
  rfl

/-- Witness for C3 at a concrete environment, key and message. -/
theorem ask_with_correct_key_equals_public_witness :
    dispatch envWithKey true true deadWorld (.ask (some "wine-rag-secure-api-key-2024") "q") =
    dispatch envWithKey true true deadWorld (.askPublic "q") :=
  ask_with_correct_key_equals_public envWithKey "wine-rag-secure-api-key-2024" rfl
    true true deadWorld "q"

/-- Claim C1, as stated, is false on the code: with an empty search result the
context handed to the completion call (observed through a completion oracle
that echoes the assistant message back) is `str([])`, the string `"[]"`, not
the sentinel `"No relevant documents found."` of the spec's first-result
policy. -/
theorem first_result_policy_counterexample :
    ai_RAG_chat true true echoAssistantWorld "q" = .ok "[]" ∧
    specFirstResultContext [] = "No relevant documents found." ∧
    ("[]" : String) ≠ "No relevant documents found." :=
  ⟨rfl, rfl, by decide⟩

/-- Claim C1 (amended): the context passed to the completion call is
`str(top_results)`, the Python rendering of the entire result list in service
order: once the search result is fixed, the outcome of `ai_RAG_chat` depends
on the completion oracle only at the request whose assistant message is
`pyStr` of all results. -/
theorem context_is_str_of_all_results (msg : String) (xs : List SearchResult)
    (w1 w2 : World)
    (hs1 : w1.search ⟨msg, 20, ["content"]⟩ = .ok xs)
    (hs2 : w2.search ⟨msg, 20, ["content"]⟩ = .ok xs)
    (hc : w1.complete (ragCompletionRequest msg (pyStr xs)) =
          w2.complete (ragCompletionRequest msg (pyStr xs))) :
    ai_RAG_chat true true w1 msg = ai_RAG_chat true true w2 msg := by
  rw [ai_RAG_chat_ok_clients, ai_RAG_chat_ok_clients, hs1, hs2]
  dsimp only
  rw [hc]

/-- Witness for the amended C1 at a concrete world and message. -/
theorem context_is_str_of_all_results_witness :
    ai_RAG_chat true true quotaFailWorld "q" = ai_RAG_chat true true quotaFailWorld "q" :=
  context_is_str_of_all_results "q" [] quotaFailWorld quotaFailWorld rfl rfl rfl

/-- Claim C4: the completion call carries exactly the three ordered messages
(fixed system persona, the question as `user`, the context as `assistant`)
with temperature 0.7, max tokens 4096, top_p 0.95, zero penalties and no stop
sequences, and `ai_RAG_chat` returns the first choice's content verbatim. -/
theorem completion_call_shape (w : World) (msg : String) (xs : List SearchResult)
    (comp : Completion) (c : Choice) (rest : List Choice)
    (hs : w.search ⟨msg, 20, ["content"]⟩ = .ok xs)
    (hc : w.complete ⟨"gpt-35-turbo-2",
            [⟨"system", systemPersona⟩, ⟨"user", msg⟩, ⟨"assistant", pyStr xs⟩],
            0.7, 4096, 0.95, 0, 0, none⟩ = .ok comp)
    (hch : comp.choices = c :: rest) :
    ai_RAG_chat true true w msg = .ok c.message.content := by
  rw [ai_RAG_chat_ok_clients, hs]
  dsimp only
  rw [show ragCompletionRequest msg (pyStr xs) =
        ⟨"gpt-35-turbo-2",
         [⟨"system", systemPersona⟩, ⟨"user", msg⟩, ⟨"assistant", pyStr xs⟩],
         0.7, 4096, 0.95, 0, 0, none⟩ from rfl, hc]
  dsimp only
  rw [hch]

/-- Witness for C4 at a concrete world with one completion choice. -/
theorem completion_call_shape_witness :
    ai_RAG_chat true true oneAnswerWorld "q" = .ok "Wine answer" :=
  completion_call_shape oneAnswerWorld "q" [] ⟨[⟨⟨"assistant", "Wine answer"⟩⟩]⟩
    ⟨⟨"assistant", "Wine answer"⟩⟩ [] rfl rfl rfl

/-- Claim C5: the flow consults the search oracle only at the single request
`(search_text = the message, top = 20, select = ["content"])` — the message,
including the empty string, is passed through unvalidated — so two worlds
agreeing there (and on completions) are indistinguishable. -/
theorem search_call_shape (msg : String) (w1 w2 : World)
    (hs : w1.search ⟨msg, 20, ["content"]⟩ = w2.search ⟨msg, 20, ["content"]⟩)
    (hc : ∀ r, w1.complete r = w2.complete r) :
    ai_RAG_chat true true w1 msg = ai_RAG_chat true true w2 msg := by
  rw [ai_RAG_chat_ok_clients, ai_RAG_chat_ok_clients, ← hs]
  cases hres : w1.search ⟨msg, 20, ["content"]⟩ with
  | error e => rfl
  | ok xs =>
    dsimp only
    rw [hc]

/-- Witness for C5: the empty query is passed through, and a world that only
distinguishes the cap 20 agrees with a constant world. -/
theorem search_call_shape_witness :
    ai_RAG_chat true true onlyTop20World "" = ai_RAG_chat true true emptySearchWorld "" :=
  search_call_shape "" onlyTop20World emptySearchWorld rfl (fun _ => rfl)

/-- Claim C6: the `/health` body is unchanged when the two secrets change
value (only their truthiness matters), and its report for each secret is
always the string `"set"` or `"missing"`, never the raw value. -/
theorem health_check_no_secret_leak (o s : Bool) (e1 e2 : Env)
    (h1 : pyTruthy e1.OPENAI_API_KEY = pyTruthy e2.OPENAI_API_KEY)
    (h2 : pyTruthy e1.SEARCH_API_KEY = pyTruthy e2.SEARCH_API_KEY)
    (h3 : e1.SEARCH_SERVICE_NAME = e2.SEARCH_SERVICE_NAME)
    (h4 : e1.SEARCH_INDEX_NAME = e2.SEARCH_INDEX_NAME)
    (h5 : pyTruthy e1.API_KEY = pyTruthy e2.API_KEY) :
    health_check o s e1 = health_check o s e2 ∧
    ((health_check o s e1).environment.OPENAI_API_KEY = "set" ∨
     (health_check o s e1).environment.OPENAI_API_KEY = "missing") ∧
    ((health_check o s e1).environment.SEARCH_API_KEY = "set" ∨
     (health_check o s e1).environment.SEARCH_API_KEY = "missing") := by
  refine ⟨?_, ?_, ?_⟩
  · simp only [health_check, h1, h2, h3, h4, h5]
  · cases hb : pyTruthy e1.OPENAI_API_KEY <;> simp [health_check, hb]
  · cases hb : pyTruthy e1.SEARCH_API_KEY <;> simp [health_check, hb]

/-- Witness for C6: two environments differing exactly in the two secret
values produce identical health bodies. -/
theorem health_check_no_secret_leak_witness :
    health_check true true envA = health_check true true envB ∧
    ((health_check true true envA).environment.OPENAI_API_KEY = "set" ∨
     (health_check true true envA).environment.OPENAI_API_KEY = "missing") ∧
    ((health_check true true envA).environment.SEARCH_API_KEY = "set" ∨
     (health_check true true envA).environment.SEARCH_API_KEY = "missing") :=
  health_check_no_secret_leak true true envA envB rfl rfl rfl rfl rfl

/-- Claim C7: when the search call succeeds but the completion call fails,
`ai_RAG_chat` and all three RAG routes fail with a 500 carrying the upstream
message (no `ChatResponse` is produced). -/
theorem completion_failure_whole_request_fails (env : Env) (w : World) (msg : String)
    (xs : List SearchResult) (err : String) (key : Option String)
    (hauth : verify_api_key env key = .ok true)
    (hs : w.search ⟨msg, 20, ["content"]⟩ = .ok xs)
    (hcf : w.complete (ragCompletionRequest msg (pyStr xs)) = .error err) :
    ai_RAG_chat true true w msg = .error ⟨500, ragFailedDetail err, []⟩ ∧
    dispatch env true true w (.ask key msg) = ⟨500, .detail (ragFailedDetail err), []⟩ ∧
    dispatch env true true w (.chatReq key msg) = ⟨500, .detail (ragFailedDetail err), []⟩ ∧
    dispatch env true true w (.askPublic msg) = ⟨500, .detail (ragFailedDetail err), []⟩ := by
  have hrag : ai_RAG_chat true true w msg = .error ⟨500, ragFailedDetail err, []⟩ := by
    rw [ai_RAG_chat_ok_clients, hs]
    dsimp only
    rw [hcf]
  refine ⟨hrag, ?_, ?_, ?_⟩
  · simp [dispatch, hauth, ask_question, hrag, toResponse]
  · simp [dispatch, hauth, chat, ask_question, hrag, toResponse]
  · simp [dispatch, ask_question_public, hrag, toResponse]

/-- Witness for C7 at a concrete failing completion. -/
theorem completion_failure_whole_request_fails_witness :
    ai_RAG_chat true true quotaFailWorld "q" =
      .error ⟨500, ragFailedDetail "quota exceeded", []⟩ ∧
    dispatch envNone true true quotaFailWorld (.ask none "q") =
      ⟨500, .detail (ragFailedDetail "quota exceeded"), []⟩ ∧
    dispatch envNone true true quotaFailWorld (.chatReq none "q") =
      ⟨500, .detail (ragFailedDetail "quota exceeded"), []⟩ ∧
    dispatch envNone true true quotaFailWorld (.askPublic "q") =
      ⟨500, .detail (ragFailedDetail "quota exceeded"), []⟩ :=
  completion_failure_whole_request_fails envNone quotaFailWorld "q" [] "quota exceeded"
    none rfl rfl rfl

/-- Claim C8, as stated, is false on the code: with both clients unset but a
secret configured, a `/ask` request without the header fails with 401, not
with the 500 "clients not initialized" error; and with only the OpenAI handle
unset, `/health` reports the search client as "initialized", not "failed". -/
theorem clients_claim_counterexample :
    dispatch envWithKey false false deadWorld (.ask none "q") =
      ⟨401, .detail invalidKeyDetail, apiKeyChallenge⟩ ∧
    (dispatch envWithKey false false deadWorld (.ask none "q")).status ≠ 500 ∧
    (health_check false true envWithKey).search_client = "initialized" :=
  ⟨rfl, by decide, rfl⟩

/-- Claim C8 (amended): if either client handle is unset, every request that
passes the auth gate — and every `/ask-public` request — fails with the 500
"Clients not properly initialized" error, while `/health` still responds 200
and reports each unset client as "failed". -/
theorem clients_not_initialized_behavior (env : Env) (o s : Bool)
    (hfail : o = false ∨ s = false) (w : World) (key : Option String) (msg : String)
    (hauth : verify_api_key env key = .ok true) :
    dispatch env o s w (.ask key msg) = ⟨500, .detail clientsNotInitializedDetail, []⟩ ∧
    dispatch env o s w (.chatReq key msg) = ⟨500, .detail clientsNotInitializedDetail, []⟩ ∧
    dispatch env o s w (.askPublic msg) = ⟨500, .detail clientsNotInitializedDetail, []⟩ ∧
    dispatch env o s w .healthReq = ⟨200, .healthBody (health_check o s env), []⟩ ∧
    (o = false → (health_check o s env).openai_client = "failed") ∧
    (s = false → (health_check o s env).search_client = "failed") := by
  have hcond : (!o || !s) = true := by
    rcases hfail with rfl | rfl <;> simp
  have hrag : ai_RAG_chat o s w msg = .error ⟨500, clientsNotInitializedDetail, []⟩ := by
    unfold ai_RAG_chat
    rw [if_pos hcond]
  refine ⟨?_, ?_, ?_, rfl, ?_, ?_⟩
  · simp [dispatch, hauth, ask_question, hrag, toResponse]
  · simp [dispatch, hauth, chat, ask_question, hrag, toResponse]
  · simp [dispatch, ask_question_public, hrag, toResponse]
  · intro h
    subst h
    simp [health_check]
  · intro h
    subst h
    simp [health_check]

/-- Witness for the amended C8 with both handles unset and no secret. -/
theorem clients_not_initialized_behavior_witness :
    dispatch envNone false false deadWorld (.ask none "q") =
      ⟨500, .detail clientsNotInitializedDetail, []⟩ ∧
    dispatch envNone false false deadWorld (.chatReq none "q") =
      ⟨500, .detail clientsNotInitializedDetail, []⟩ ∧
    dispatch envNone false false deadWorld (.askPublic "q") =
      ⟨500, .detail clientsNotInitializedDetail, []⟩ ∧
    dispatch envNone false false deadWorld .healthReq =
      ⟨200, .healthBody (health_check false false envNone), []⟩ ∧
    (false = false → (health_check false false envNone).openai_client = "failed") ∧
    (false = false → (health_check false false envNone).search_client = "failed") :=
  clients_not_initialized_behavior envNone false false (Or.inl rfl) deadWorld none "q" rfl

/-- Helper: looking up the key just set finds the new value. -/
theorem headerGet_headerSet_self (hs : List (String × String)) (k v : String) :
    headerGet (headerSet hs k v) k = some v := by
  induction hs with
  | nil => simp [headerGet, headerSet]
  | cons a t ih =>
    by_cases hak : a.1 = k
    · simp only [headerSet] at ih ⊢
      rw [List.filter_cons_of_neg (by simp [hak])]
      exact ih
    · simp only [headerSet] at ih ⊢
      rw [List.filter_cons_of_pos (by simp [hak])]
      simp only [headerGet]
      rw [if_neg (by simp [hak])]
      exact ih

/-- Helper: setting one key leaves lookups of other keys unchanged. -/
theorem headerGet_headerSet_ne (hs : List (String × String)) (k k' v : String)
    (h : ¬ k' = k) :
    headerGet (headerSet hs k v) k' = headerGet hs k' := by
  have hkk : (k == k') = false := beq_eq_false_iff_ne.mpr (fun he => h (Eq.symm he))
  induction hs with
  | nil =>
    simp only [headerSet, List.filter_nil, List.nil_append]
    simp [headerGet, hkk]
  | cons a t ih =>
    by_cases hak : a.1 = k
    · simp only [headerSet] at ih ⊢
      rw [List.filter_cons_of_neg (by simp [hak]), ih]
      simp only [headerGet]
      rw [if_neg (by simp [hak, hkk])]
    · simp only [headerSet] at ih ⊢
      rw [List.filter_cons_of_pos (by simp [hak])]
      show (if (a.1 == k') = true then some a.2
            else headerGet (List.filter (fun p => !(p.1 == k)) t ++ [(k, v)]) k') =
           (if (a.1 == k') = true then some a.2 else headerGet t k')
      rw [ih]

/-- Helper: the middleware leaves each of the eight fixed headers present
with its fixed value, whatever the inner response was. -/
theorem add_security_headers_headers (r : Response) :
    headerGet (add_security_headers r).headers "Strict-Transport-Security" =
      some "max-age=31536000; includeSubDomains; preload" ∧
    headerGet (add_security_headers r).headers "X-Content-Type-Options" = some "nosniff" ∧
    headerGet (add_security_headers r).headers "X-Frame-Options" = some "DENY" ∧
    headerGet (add_security_headers r).headers "X-XSS-Protection" = some "1; mode=block" ∧
    headerGet (add_security_headers r).headers "Content-Security-Policy" = some cspValue ∧
    headerGet (add_security_headers r).headers "Referrer-Policy" =
      some "strict-origin-when-cross-origin" ∧
    headerGet (add_security_headers r).headers "Permissions-Policy" =
      some "geolocation=(), microphone=(), camera=()" ∧
    headerGet (add_security_headers r).headers "X-Security-Features" =
      some "HTTPS-Enforced-By-Azure,HSTS-Enabled,SSL-Termination" := by
  unfold add_security_headers
  refine ⟨?_, ?_, ?_, ?_, ?_, ?_, ?_, ?_⟩ <;>
    simp +decide [headerGet_headerSet_self, headerGet_headerSet_ne]

/-- Claim C10: every response of the service, on every route and for every
outcome (including 401 and 500), carries the eight fixed security headers set
by the middleware with their constant values. -/
theorem security_headers_on_every_response (env : Env) (o s : Bool) (w : World)
    (req : Request) :
    headerGet (handle_request env o s w req).headers "Strict-Transport-Security" =
      some "max-age=31536000; includeSubDomains; preload" ∧
    headerGet (handle_request env o s w req).headers "X-Content-Type-Options" =
      some "nosniff" ∧
    headerGet (handle_request env o s w req).headers "X-Frame-Options" = some "DENY" ∧
    headerGet (handle_request env o s w req).headers "X-XSS-Protection" =
      some "1; mode=block" ∧
    headerGet (handle_request env o s w req).headers "Content-Security-Policy" =
      some cspValue ∧
    headerGet (handle_request env o s w req).headers "Referrer-Policy" =
      some "strict-origin-when-cross-origin" ∧
    headerGet (handle_request env o s w req).headers "Permissions-Policy" =
      some "geolocation=(), microphone=(), camera=()" ∧
    headerGet (handle_request env o s w req).headers "X-Security-Features" =
      some "HTTPS-Enforced-By-Azure,HSTS-Enabled,SSL-Termination" :=
  add_security_headers_headers (dispatch env o s w req)

end WineRag
